import Mathlib

/-!
# teensy4_mouse: the PMW3360 driver header

A shallow embedding of `teensy4_mouse.h`: the digital pin map, the PMW3360
register address table and the SPI wait times are the header's `#define`
constants, kept under their source names as natural numbers.  The functions
the header only declares (`set_CPI`, `check_signature`, `begin_PMW`) are
modelled from the specification and marked as such.
-/

namespace Teensy4Mouse

/-! ## Mouse inputs (header lines 1-21) -/

def PMW_CS : Nat := 10
def PMW_MOSI : Nat := 11
def PMW_MISO : Nat := 12
def PMW_SCK : Nat := 13
def PMW_MOTION : Nat := 16
def PMW_RESET : Nat := 17
def MS_0 : Nat := 20
def MS_1 : Nat := 21
def MC_NO : Nat := 14
def MC_NC : Nat := 15
def M1_NO : Nat := 18
def M1_NC : Nat := 19
def M2_NO : Nat := 9
def M2_NC : Nat := 8
def M3_NO : Nat := 7
def M3_NC : Nat := 6
def M4_NO : Nat := 22
def M4_NC : Nat := 23
def M5_NO : Nat := 5
def M5_NC : Nat := 4

/-- The four lines of the sensor's serial bus. -/
def busPins : List Nat := [PMW_CS, PMW_MOSI, PMW_MISO, PMW_SCK]

/-- The sensor's motion and reset lines and the two MS lines. -/
def auxPins : List Nat := [PMW_MOTION, PMW_RESET, MS_0, MS_1]

/-- The six contacts MC, M1..M5, each as its (normally-open, normally-closed) pair of lines. -/
def contactPairs : List (Nat × Nat) :=
  [(MC_NO, MC_NC), (M1_NO, M1_NC), (M2_NO, M2_NC),
   (M3_NO, M3_NC), (M4_NO, M4_NC), (M5_NO, M5_NC)]

/-- Both lines of every contact, in the order of the header. -/
def contactPins : List Nat := contactPairs.flatMap fun p => [p.1, p.2]

/-- Every pin the header assigns, in the order of the header. -/
def pinMap : List Nat := busPins ++ auxPins ++ contactPins

/-! ## PMW_3360 registers (header lines 23-72) -/

def REG_Product_ID : Nat := 0x00
def REG_Revision_ID : Nat := 0x01
def REG_Motion : Nat := 0x02
def REG_Delta_X_L : Nat := 0x03
def REG_Delta_X_H : Nat := 0x04
def REG_Delta_Y_L : Nat := 0x05
def REG_Delta_Y_H : Nat := 0x06
def REG_SQUAL : Nat := 0x07
def REG_Raw_Data_Sum : Nat := 0x08
def REG_Maximum_Raw_data : Nat := 0x09
def REG_Minimum_Raw_data : Nat := 0x0A
def REG_Shutter_Lower : Nat := 0x0B
def REG_Shutter_Upper : Nat := 0x0C
def REG_Control : Nat := 0x0D
def REG_Config1 : Nat := 0x0F
def REG_Config2 : Nat := 0x10
def REG_Angle_Tune : Nat := 0x11
def REG_Frame_Capture : Nat := 0x12
def REG_SROM_Enable : Nat := 0x13
def REG_Run_Downshift : Nat := 0x14
def REG_Rest1_Rate_Lower : Nat := 0x15
def REG_Rest1_Rate_Upper : Nat := 0x16
def REG_Rest1_Downshift : Nat := 0x17
def REG_Rest2_Rate_Lower : Nat := 0x18
def REG_Rest2_Rate_Upper : Nat := 0x19
def REG_Rest2_Downshift : Nat := 0x1A
def REG_Rest3_Rate_Lower : Nat := 0x1B
def REG_Rest3_Rate_Upper : Nat := 0x1C
def REG_Observation : Nat := 0x24
def REG_Data_Out_Lower : Nat := 0x25
def REG_Data_Out_Upper : Nat := 0x26
def REG_Raw_Data_Dump : Nat := 0x29
def REG_SROM_ID : Nat := 0x2A
def REG_Min_SQ_Run : Nat := 0x2B
def REG_Raw_Data_Threshold : Nat := 0x2C
def REG_Config5 : Nat := 0x2F
def REG_Power_Up_Reset : Nat := 0x3A
def REG_Shutdown : Nat := 0x3B
def REG_Inverse_Product_ID : Nat := 0x3F
def REG_LiftCutoff_Tune3 : Nat := 0x41
def REG_Angle_Snap : Nat := 0x42
def REG_LiftCutoff_Tune1 : Nat := 0x4A
def REG_Motion_Burst : Nat := 0x50
def REG_LiftCutoff_Tune_Timeout : Nat := 0x58
def REG_LiftCutoff_Tune_Min_Length : Nat := 0x5A
def REG_SROM_Load_Burst : Nat := 0x62
def REG_Lift_Config : Nat := 0x63
def REG_Raw_Data_Burst : Nat := 0x64
def REG_LiftCutoff_Tune2 : Nat := 0x65

/-- The names of the register table: one constructor per `REG_*` line of the header,
in the order of the header. -/
inductive RegName where
  | Product_ID | Revision_ID | Motion | Delta_X_L | Delta_X_H | Delta_Y_L | Delta_Y_H
  | SQUAL | Raw_Data_Sum | Maximum_Raw_data | Minimum_Raw_data | Shutter_Lower
  | Shutter_Upper | Control | Config1 | Config2 | Angle_Tune | Frame_Capture
  | SROM_Enable | Run_Downshift | Rest1_Rate_Lower | Rest1_Rate_Upper | Rest1_Downshift
  | Rest2_Rate_Lower | Rest2_Rate_Upper | Rest2_Downshift | Rest3_Rate_Lower
  | Rest3_Rate_Upper | Observation | Data_Out_Lower | Data_Out_Upper | Raw_Data_Dump
  | SROM_ID | Min_SQ_Run | Raw_Data_Threshold | Config5 | Power_Up_Reset | Shutdown
  | Inverse_Product_ID | LiftCutoff_Tune3 | Angle_Snap | LiftCutoff_Tune1 | Motion_Burst
  | LiftCutoff_Tune_Timeout | LiftCutoff_Tune_Min_Length | SROM_Load_Burst | Lift_Config
  | Raw_Data_Burst | LiftCutoff_Tune2
  deriving DecidableEq, Repr

/-- The register table: the address the header defines for each register name. -/
def RegName.addr : RegName → Nat
  | .Product_ID => REG_Product_ID
  | .Revision_ID => REG_Revision_ID
  | .Motion => REG_Motion
  | .Delta_X_L => REG_Delta_X_L
  | .Delta_X_H => REG_Delta_X_H
  | .Delta_Y_L => REG_Delta_Y_L
  | .Delta_Y_H => REG_Delta_Y_H
  | .SQUAL => REG_SQUAL
  | .Raw_Data_Sum => REG_Raw_Data_Sum
  | .Maximum_Raw_data => REG_Maximum_Raw_data
  | .Minimum_Raw_data => REG_Minimum_Raw_data
  | .Shutter_Lower => REG_Shutter_Lower
  | .Shutter_Upper => REG_Shutter_Upper
  | .Control => REG_Control
  | .Config1 => REG_Config1
  | .Config2 => REG_Config2
  | .Angle_Tune => REG_Angle_Tune
  | .Frame_Capture => REG_Frame_Capture
  | .SROM_Enable => REG_SROM_Enable
  | .Run_Downshift => REG_Run_Downshift
  | .Rest1_Rate_Lower => REG_Rest1_Rate_Lower
  | .Rest1_Rate_Upper => REG_Rest1_Rate_Upper
  | .Rest1_Downshift => REG_Rest1_Downshift
  | .Rest2_Rate_Lower => REG_Rest2_Rate_Lower
  | .Rest2_Rate_Upper => REG_Rest2_Rate_Upper
  | .Rest2_Downshift => REG_Rest2_Downshift
  | .Rest3_Rate_Lower => REG_Rest3_Rate_Lower
  | .Rest3_Rate_Upper => REG_Rest3_Rate_Upper
  | .Observation => REG_Observation
  | .Data_Out_Lower => REG_Data_Out_Lower
  | .Data_Out_Upper => REG_Data_Out_Upper
  | .Raw_Data_Dump => REG_Raw_Data_Dump
  | .SROM_ID => REG_SROM_ID
  | .Min_SQ_Run => REG_Min_SQ_Run
  | .Raw_Data_Threshold => REG_Raw_Data_Threshold
  | .Config5 => REG_Config5
  | .Power_Up_Reset => REG_Power_Up_Reset
  | .Shutdown => REG_Shutdown
  | .Inverse_Product_ID => REG_Inverse_Product_ID
  | .LiftCutoff_Tune3 => REG_LiftCutoff_Tune3
  | .Angle_Snap => REG_Angle_Snap
  | .LiftCutoff_Tune1 => REG_LiftCutoff_Tune1
  | .Motion_Burst => REG_Motion_Burst
  | .LiftCutoff_Tune_Timeout => REG_LiftCutoff_Tune_Timeout
  | .LiftCutoff_Tune_Min_Length => REG_LiftCutoff_Tune_Min_Length
  | .SROM_Load_Burst => REG_SROM_Load_Burst
  | .Lift_Config => REG_Lift_Config
  | .Raw_Data_Burst => REG_Raw_Data_Burst
  | .LiftCutoff_Tune2 => REG_LiftCutoff_Tune2

/-- Every name of the register table, in the order of the header. -/
def RegName.all : List RegName :=
  [.Product_ID, .Revision_ID, .Motion, .Delta_X_L, .Delta_X_H, .Delta_Y_L, .Delta_Y_H,
   .SQUAL, .Raw_Data_Sum, .Maximum_Raw_data, .Minimum_Raw_data, .Shutter_Lower,
   .Shutter_Upper, .Control, .Config1, .Config2, .Angle_Tune, .Frame_Capture,
   .SROM_Enable, .Run_Downshift, .Rest1_Rate_Lower, .Rest1_Rate_Upper, .Rest1_Downshift,
   .Rest2_Rate_Lower, .Rest2_Rate_Upper, .Rest2_Downshift, .Rest3_Rate_Lower,
   .Rest3_Rate_Upper, .Observation, .Data_Out_Lower, .Data_Out_Upper, .Raw_Data_Dump,
   .SROM_ID, .Min_SQ_Run, .Raw_Data_Threshold, .Config5, .Power_Up_Reset, .Shutdown,
   .Inverse_Product_ID, .LiftCutoff_Tune3, .Angle_Snap, .LiftCutoff_Tune1, .Motion_Burst,
   .LiftCutoff_Tune_Timeout, .LiftCutoff_Tune_Min_Length, .SROM_Load_Burst, .Lift_Config,
   .Raw_Data_Burst, .LiftCutoff_Tune2]

/-- The addresses of the register table, in the order of the header. -/
def registerTable : List Nat := RegName.all.map RegName.addr

/-! ## Wait times for SPI transactions (header lines 74-80), in microseconds -/

def TSRAD_MOTION_BURST : Nat := 35
def TSWW : Nat := 180
def TSRAD : Nat := 160
def TSRW : Nat := 20
def TSRR : Nat := 20
def TLOAD : Nat := 15

/-! ## Resolution control (`void set_CPI(uint16_t cpi)`, header line 88)

The header declares `set_CPI` and holds neither its body nor the figures of the
supported range, so the range is a parameter and the function follows the
specification's resolution controller. -/

/-- The sensor's supported resolution range: the counts per inch of one encoded step
and the minimum and maximum supported step count. -/
structure ResolutionRange where
  step : Nat
  minimum : Nat
  maximum : Nat
  deriving DecidableEq, Repr

/-- A usable range: a positive step, a minimum not above the maximum, and a maximum
step count that fits the 8-bit resolution register. -/
def ResolutionRange.WellFormed (r : ResolutionRange) : Prop :=
  0 < r.step ∧ r.minimum ≤ r.maximum ∧ r.maximum < 256

instance (r : ResolutionRange) : Decidable r.WellFormed := by
  unfold ResolutionRange.WellFormed
  infer_instance

/-- The lowest supported counts-per-inch value. -/
def ResolutionRange.minCPI (r : ResolutionRange) : Nat := r.minimum * r.step

/-- The highest supported counts-per-inch value. -/
def ResolutionRange.maxCPI (r : ResolutionRange) : Nat := r.maximum * r.step

/-- The ways to read the "rounded" of "counts-per-inch / step, rounded". -/
inductive Rounding where
  | down | nearest | up
  deriving DecidableEq, Repr

/-- The quotient `n / step` rounded in the given direction. -/
def Rounding.div (m : Rounding) (n step : Nat) : Nat :=
  match m with
  | .down => n / step
  | .nearest => (n + step / 2) / step
  | .up => (n + (step - 1)) / step

/-- The request limited to the supported range. -/
def clampCPI (r : ResolutionRange) (cpi : Nat) : Nat :=
  if cpi < r.minCPI then r.minCPI else if r.maxCPI < cpi then r.maxCPI else cpi

/-- The encoded step value of a counts-per-inch value, before it is stored in a byte. -/
def encodeCPI (r : ResolutionRange) (m : Rounding) (cpi : Nat) : Nat :=
  m.div cpi r.step

/-- Modelled from the spec: the body of `set_CPI`, which the header only declares.
"Clamps input to the supported range, converts to the encoded step value, writes the
resolution register": the result is the byte written to the resolution register, the
encoded value reduced modulo 256 as an 8-bit register value is. -/
def set_CPI (r : ResolutionRange) (m : Rounding) (cpi : Nat) : Nat :=
  encodeCPI r m (clampCPI r cpi) % 256

/-- Modelled from the spec: the encoding in the words of the data model, "resolution
register value = counts-per-inch / step, rounded, clamped to [minimum, maximum]
supported step count", stored in a byte. -/
def resolutionSetting (r : ResolutionRange) (m : Rounding) (cpi : Nat) : Nat :=
  (let v := m.div cpi r.step
   if v < r.minimum then r.minimum else if r.maximum < v then r.maximum else v) % 256

/-- A sample range for evaluation: 100 to 12000 counts per inch in steps of 100. -/
def sampleRange : ResolutionRange := ⟨100, 1, 120⟩

/-! ## Sensor session (`uint32_t begin_PMW()`, `uint32_t check_signature()`,
header lines 86-87)

The header declares both functions and holds neither their bodies nor the expected
identity constant, so the constant is a parameter and the functions follow the
specification's session state machine. -/

/-- The lifecycle states of the sensor session. -/
inductive SessionState where
  | Uninitialized | Resetting | FirmwareLoading | Verifying | Ready | Faulted
  deriving DecidableEq, Repr

/-- The bitwise inverse of a byte. -/
def inverseByte (b : Nat) : Nat := (b % 256) ^^^ 0xFF

/-- Modelled from the spec: the body of `read_reg_PMW`, which the header only
declares.  A read sends the address with the write bit clear and receives one byte;
`regs` is the byte the sensor answers with at each address. -/
def read_reg_PMW (regs : Nat → Nat) (reg : Nat) : Nat :=
  regs (reg &&& 0x7F) % 256

/-- Modelled from the spec: the body of `check_signature`, which the header only
declares.  "Product-ID register read matches the expected constant AND its
bitwise-inverse register matches the expected inverse - both must agree." -/
def check_signature (expected : Nat) (regs : Nat → Nat) : Bool :=
  read_reg_PMW regs REG_Product_ID == expected &&
    read_reg_PMW regs REG_Inverse_Product_ID == inverseByte expected

/-- Modelled from the spec: the outcome of the firmware loader (`upload_firmware`,
which the header only declares).  "Failure conditions: image empty, or a post-load
verification (via the signature check) does not pass." -/
def upload_firmware (expected : Nat) (regs : Nat → Nat) (image : List Nat) : Bool :=
  !image.isEmpty && check_signature expected regs

/-- Modelled from the spec: one transition of the session state machine of the
session manager.  Ready and Faulted have no transition of their own. -/
def sessionStep (expected : Nat) (regs : Nat → Nat) (image : List Nat) :
    SessionState → SessionState
  | .Uninitialized => .Resetting
  | .Resetting => .FirmwareLoading
  | .FirmwareLoading => if upload_firmware expected regs image then .Verifying else .Faulted
  | .Verifying => if check_signature expected regs then .Ready else .Faulted
  | .Ready => .Ready
  | .Faulted => .Faulted

/-- The session state `n` transitions after `begin_PMW` is called on a fresh session. -/
def sessionAfter (expected : Nat) (regs : Nat → Nat) (image : List Nat) :
    Nat → SessionState
  | 0 => .Uninitialized
  | n + 1 => sessionStep expected regs image (sessionAfter expected regs image n)

/-- Modelled from the spec: the body of `begin_PMW`, which the header only declares:
the state the session is left in, four transitions after Uninitialized (reset,
firmware load, verification, and the outcome). -/
def begin_PMW (expected : Nat) (regs : Nat → Nat) (image : List Nat) : SessionState :=
  sessionAfter expected regs image 4

/-- A sample sensor for evaluation: it answers `pid` at the product-ID register,
`ipid` at the inverse-product-ID register and 0 elsewhere. -/
def sampleSensor (pid ipid : Nat) : Nat → Nat := fun a =>
  if a = REG_Product_ID then pid else if a = REG_Inverse_Product_ID then ipid else 0

/-! ## Theorems -/

/-- Every register name occurs in the enumeration of the table. -/
theorem RegName.mem_all (r : RegName) : r ∈ RegName.all := by
  cases r <;> decide

/-- Claim C1: the six bus timing constants have the microsecond values of the wire
contract: TLOAD 15, TSWW 180, TSRAD 160, TSRW 20, TSRR 20, TSRAD_MOTION_BURST 35. -/
theorem C1_timing_constants :
    TLOAD = 15 ∧ TSWW = 180 ∧ TSRAD = 160 ∧ TSRW = 20 ∧ TSRR = 20 ∧
      TSRAD_MOTION_BURST = 35 := by
  decide

/-- Claim C2: every address of the register table lies in 0x00..0x7F, so setting the
write bit (OR 0x80) changes it and masking with 0x7F gives it back. -/
theorem C2_register_addresses_seven_bit :
    ∀ r : RegName, r.addr ≤ 0x7F ∧ r.addr ||| 0x80 ≠ r.addr ∧ r.addr &&& 0x7F = r.addr ∧
      (r.addr ||| 0x80) &&& 0x7F = r.addr := by
  intro r
  cases r <;> decide

/-- Claim C5: the burst-specific settle delay is strictly shorter than the plain
read-after-write delay. -/
theorem C5_burst_delay_shorter : TSRAD_MOTION_BURST < TSRAD := by
  decide

/-- Claim C6: the firmware-upload inter-byte delay is strictly shorter than the
generic write-then-write delay. -/
theorem C6_load_delay_shorter : TLOAD < TSWW := by
  decide

/-- Claim C8: the register table has 49 names, and they map to 49 pairwise-distinct
addresses: the address map is injective. -/
theorem C8_register_table_injective :
    RegName.all.length = 49 ∧ RegName.all.Nodup ∧ (∀ r : RegName, r ∈ RegName.all) ∧
      registerTable.length = 49 ∧ registerTable.Nodup ∧
      Function.Injective RegName.addr := by
  have hnodup : registerTable.Nodup := by decide
  refine ⟨by decide, by decide, RegName.mem_all, by decide, hnodup, ?_⟩
  intro a b hab
  exact List.inj_on_of_nodup_map hnodup (RegName.mem_all a) (RegName.mem_all b) hab

/-- Claim C9: motion flag, delta-X low and high, delta-Y low and high sit at
0x02..0x06 in that order, each high byte one above its low byte, and the diagnostic
registers follow contiguously at 0x07..0x0C. -/
theorem C9_motion_block_layout :
    [REG_Motion, REG_Delta_X_L, REG_Delta_X_H, REG_Delta_Y_L, REG_Delta_Y_H]
        = [0x02, 0x03, 0x04, 0x05, 0x06] ∧
      REG_Delta_X_H = REG_Delta_X_L + 1 ∧ REG_Delta_Y_H = REG_Delta_Y_L + 1 ∧
      [REG_SQUAL, REG_Raw_Data_Sum, REG_Maximum_Raw_data, REG_Minimum_Raw_data,
        REG_Shutter_Lower, REG_Shutter_Upper]
        = [0x07, 0x08, 0x09, 0x0A, 0x0B, 0x0C] := by
  decide

/-- Claim C10: the 20 pin assignments are pairwise distinct: every contact has
different NO and NC lines, no line is shared between two contacts, and no contact line
is a line of the sensor bus. -/
theorem C10_pin_map_conflict_free :
    pinMap.length = 20 ∧ pinMap.Nodup ∧
      (∀ p ∈ contactPairs, p.1 ≠ p.2) ∧
      contactPins.Nodup ∧
      (∀ x ∈ contactPins, x ∉ busPins) := by
  decide


/-! ### Resolution control -/

/-- Rounding a quotient is monotone in the dividend. -/
theorem Rounding.div_mono (m : Rounding) {a b : Nat} (step : Nat) (h : a ≤ b) :
    m.div a step ≤ m.div b step := by
  cases m <;> simp only [Rounding.div] <;> apply Nat.div_le_div_right <;> omega

/-- Rounding is exact on the multiples of the step. -/
theorem Rounding.div_mul (m : Rounding) (k : Nat) {step : Nat} (h : 0 < step) :
    m.div (k * step) step = k := by
  cases m <;> simp only [Rounding.div]
  · exact Nat.mul_div_cancel k h
  · rw [Nat.add_comm, Nat.add_mul_div_right _ _ h,
      Nat.div_eq_of_lt (Nat.div_lt_self h (by decide)), Nat.zero_add]
  · rw [Nat.add_comm, Nat.add_mul_div_right _ _ h,
      Nat.div_eq_of_lt (Nat.sub_lt h (by decide)), Nat.zero_add]

/-- The clamped request lies in the supported range. -/
theorem clampCPI_mem (r : ResolutionRange) (cpi : Nat) (h : r.minimum ≤ r.maximum) :
    r.minCPI ≤ clampCPI r cpi ∧ clampCPI r cpi ≤ r.maxCPI := by
  have hle : r.minCPI ≤ r.maxCPI := Nat.mul_le_mul_right r.step h
  unfold clampCPI
  split_ifs <;> omega

/-- The encoded value of a clamped request is a supported step count. -/
theorem encodeCPI_clampCPI_mem (r : ResolutionRange) (m : Rounding) (cpi : Nat)
    (hr : r.WellFormed) :
    r.minimum ≤ encodeCPI r m (clampCPI r cpi) ∧
      encodeCPI r m (clampCPI r cpi) ≤ r.maximum := by
  obtain ⟨hstep, hle, _⟩ := hr
  obtain ⟨h1, h2⟩ := clampCPI_mem r cpi hle
  constructor
  · calc r.minimum = m.div (r.minimum * r.step) r.step := (m.div_mul r.minimum hstep).symm
      _ ≤ m.div (clampCPI r cpi) r.step := m.div_mono r.step h1
  · calc m.div (clampCPI r cpi) r.step ≤ m.div (r.maximum * r.step) r.step :=
        m.div_mono r.step h2
      _ = r.maximum := m.div_mul r.maximum hstep

/-- Clamping the request and then encoding it gives the same register value as
encoding the request and then clamping the step count: the two wordings of the
specification describe one function. -/
theorem set_CPI_eq_resolutionSetting (r : ResolutionRange) (m : Rounding) (cpi : Nat)
    (hr : r.WellFormed) : set_CPI r m cpi = resolutionSetting r m cpi := by
  obtain ⟨hstep, hle, _⟩ := hr
  have hmin := m.div_mul r.minimum hstep
  have hmax := m.div_mul r.maximum hstep
  simp only [set_CPI, resolutionSetting, encodeCPI, clampCPI,
    ResolutionRange.minCPI, ResolutionRange.maxCPI]
  congr 1
  by_cases h1 : cpi < r.minimum * r.step
  · have := m.div_mono r.step h1.le
    rw [hmin] at this
    rw [if_pos h1, hmin]
    split_ifs <;> omega
  · rw [if_neg h1]
    have hlo := m.div_mono r.step (Nat.le_of_not_lt h1)
    rw [hmin] at hlo
    by_cases h2 : r.maximum * r.step < cpi
    · have := m.div_mono r.step h2.le
      rw [hmax] at this
      rw [if_pos h2, hmax]
      split_ifs <;> omega
    · rw [if_neg h2]
      have hhi := m.div_mono r.step (Nat.le_of_not_lt h2)
      rw [hmax] at hhi
      split_ifs <;> omega

/-- The clamp leaves a supported request as it is and moves any other request to the
boundary of the supported range on its side. -/
theorem clampCPI_cases (r : ResolutionRange) (cpi : Nat) (h : r.minimum ≤ r.maximum) :
    (cpi < r.minimum * r.step → clampCPI r cpi = r.minimum * r.step) ∧
      (r.maximum * r.step < cpi → clampCPI r cpi = r.maximum * r.step) ∧
      (r.minimum * r.step ≤ cpi → cpi ≤ r.maximum * r.step → clampCPI r cpi = cpi) := by
  have hle : r.minimum * r.step ≤ r.maximum * r.step := Nat.mul_le_mul_right r.step h
  simp only [clampCPI, ResolutionRange.minCPI, ResolutionRange.maxCPI]
  refine ⟨fun h1 => ?_, fun h2 => ?_, fun h1 h2 => ?_⟩ <;> split_ifs <;> omega

/-- The byte written for a supported request is the rounded quotient of the request
itself by the step. -/
theorem set_CPI_of_supported (r : ResolutionRange) (m : Rounding) (cpi : Nat)
    (hr : r.WellFormed) (h1 : r.minimum * r.step ≤ cpi) (h2 : cpi ≤ r.maximum * r.step) :
    set_CPI r m cpi = m.div cpi r.step := by
  have hmem := encodeCPI_clampCPI_mem r m cpi hr
  obtain ⟨_, hle, hmax⟩ := hr
  have hc := (clampCPI_cases r cpi hle).2.2 h1 h2
  rw [hc] at hmem
  rw [set_CPI, hc]
  exact Nat.mod_eq_of_lt (by omega)

/-- Claim C3: set_CPI clamps every request, so every 16-bit one, to the supported
range before encoding it.  The clamp moves a request below the range to its lower end,
one above the range to its upper end, and leaves a supported request as it is.  A
request at or below the minimum gives the minimum encoded value and one at or above
the maximum gives the maximum.  A supported request gives its own quotient by the step,
rounded in the direction chosen: down, to the nearest, or up.  Every result is a
supported step count and agrees with the data model's encode-then-clamp formula, and
the byte written is the encoded value itself, never a wrapped-around one. -/
theorem C3_set_CPI_clamps (r : ResolutionRange) (m : Rounding) (cpi : Nat)
    (hr : r.WellFormed) :
    ((cpi < r.minimum * r.step → clampCPI r cpi = r.minimum * r.step) ∧
        (r.maximum * r.step < cpi → clampCPI r cpi = r.maximum * r.step) ∧
        (r.minimum * r.step ≤ cpi → cpi ≤ r.maximum * r.step → clampCPI r cpi = cpi)) ∧
      (cpi ≤ r.minimum * r.step → set_CPI r m cpi = r.minimum) ∧
      (r.maximum * r.step ≤ cpi → set_CPI r m cpi = r.maximum) ∧
      (r.minimum * r.step ≤ cpi → cpi ≤ r.maximum * r.step →
        set_CPI r Rounding.down cpi = cpi / r.step ∧
          set_CPI r Rounding.nearest cpi = (cpi + r.step / 2) / r.step ∧
          set_CPI r Rounding.up cpi = (cpi + (r.step - 1)) / r.step) ∧
      (r.minimum * r.step ≤ cpi → cpi ≤ r.maximum * r.step →
        (set_CPI r Rounding.down cpi * r.step ≤ cpi ∧
            cpi < set_CPI r Rounding.down cpi * r.step + r.step) ∧
          (set_CPI r Rounding.nearest cpi * r.step ≤ cpi + r.step / 2 ∧
            cpi + r.step / 2 < set_CPI r Rounding.nearest cpi * r.step + r.step) ∧
          (cpi ≤ set_CPI r Rounding.up cpi * r.step ∧
            set_CPI r Rounding.up cpi * r.step < cpi + r.step)) ∧
      (r.minimum ≤ set_CPI r m cpi ∧ set_CPI r m cpi ≤ r.maximum) ∧
      set_CPI r m cpi = resolutionSetting r m cpi ∧
      set_CPI r m cpi = encodeCPI r m (clampCPI r cpi) ∧
      set_CPI r m cpi < 2 ^ 8 := by
  have hmem := encodeCPI_clampCPI_mem r m cpi hr
  have hsup := fun m => set_CPI_of_supported r m cpi hr
  have heq := set_CPI_eq_resolutionSetting r m cpi hr
  obtain ⟨hstep, hle, hmax⟩ := hr
  have hcases := clampCPI_cases r cpi hle
  have hnowrap : set_CPI r m cpi = encodeCPI r m (clampCPI r cpi) :=
    Nat.mod_eq_of_lt (by omega)
  have hrange : r.minimum * r.step ≤ r.maximum * r.step := Nat.mul_le_mul_right r.step hle
  refine ⟨hcases, ?_, ?_, ?_, ?_, ?_, heq, hnowrap, Nat.mod_lt _ (by decide)⟩
  · intro h
    have hc : clampCPI r cpi = r.minimum * r.step := by
      rcases Nat.lt_or_ge cpi (r.minimum * r.step) with h1 | h1
      · exact hcases.1 h1
      · rw [hcases.2.2 h1 (by omega)]; omega
    rw [hnowrap, encodeCPI, hc, m.div_mul r.minimum hstep]
  · intro h
    have hc : clampCPI r cpi = r.maximum * r.step := by
      rcases Nat.lt_or_ge (r.maximum * r.step) cpi with h1 | h1
      · exact hcases.2.1 h1
      · rw [hcases.2.2 (by omega) h1]; omega
    rw [hnowrap, encodeCPI, hc, m.div_mul r.maximum hstep]
  · intro h1 h2
    exact ⟨hsup Rounding.down h1 h2, hsup Rounding.nearest h1 h2, hsup Rounding.up h1 h2⟩
  · intro h1 h2
    rw [hsup Rounding.down h1 h2, hsup Rounding.nearest h1 h2, hsup Rounding.up h1 h2]
    simp only [Rounding.div]
    have d1 := Nat.div_mul_le_self cpi r.step
    have d2 := @Nat.lt_div_mul_add cpi r.step hstep
    have n1 := Nat.div_mul_le_self (cpi + r.step / 2) r.step
    have n2 := @Nat.lt_div_mul_add (cpi + r.step / 2) r.step hstep
    have u1 := Nat.div_mul_le_self (cpi + (r.step - 1)) r.step
    have u2 := @Nat.lt_div_mul_add (cpi + (r.step - 1)) r.step hstep
    refine ⟨⟨d1, d2⟩, ⟨n1, n2⟩, ?_, ?_⟩ <;> omega
  · rw [hnowrap]; exact hmem

/-- Witness for C3 on the sample range, 100 to 12000 counts per inch in steps of 100,
with rounding to the nearest step: 5050 is supported and is encoded as 51. -/
theorem C3_set_CPI_clamps_witness :
    sampleRange.WellFormed ∧
      sampleRange.minimum * sampleRange.step ≤ 5050 ∧
      5050 ≤ sampleRange.maximum * sampleRange.step ∧
      set_CPI sampleRange Rounding.nearest 5050 = 51 :=
  ⟨by decide, by decide, by decide,
    ((C3_set_CPI_clamps sampleRange Rounding.nearest 5050 (by decide)).2.2.2.1
      (by decide) (by decide)).2.1⟩

/-- On the sample range a request of 50 counts per inch, below the minimum of 100, is
encoded as the minimum step count 1, one of 20000, above the maximum of 12000, as the
maximum step count 120, and the supported 800, 1600, 5000 and 11999 as 8, 16, 50 and
119 when rounding down. -/
theorem set_CPI_sampleRange :
    set_CPI sampleRange Rounding.down 50 = 1 ∧
      set_CPI sampleRange Rounding.down 20000 = 120 ∧
      set_CPI sampleRange Rounding.down 65535 = 120 ∧
      set_CPI sampleRange Rounding.down 0 = 1 ∧
      [800, 1600, 5000, 11999].map (set_CPI sampleRange Rounding.down) = [8, 16, 50, 119] ∧
      [1649, 1650].map (set_CPI sampleRange Rounding.nearest) = [16, 17] ∧
      [1600, 1601].map (set_CPI sampleRange Rounding.up) = [16, 17] := by
  decide

/-! ### Sensor session -/

/-- The signature check passes exactly when both identity reads agree with the
expected constant. -/
theorem check_signature_iff (expected : Nat) (regs : Nat → Nat) :
    check_signature expected regs = true ↔
      read_reg_PMW regs REG_Product_ID = expected ∧
        read_reg_PMW regs REG_Inverse_Product_ID = inverseByte expected := by
  simp [check_signature]

/-- After a failed signature check the session is Faulted three transitions after
`begin_PMW` is called, and stays so. -/
theorem sessionAfter_faulted (expected : Nat) (regs : Nat → Nat) (image : List Nat)
    (h : check_signature expected regs = false) (n : Nat) :
    sessionAfter expected regs image (n + 3) = SessionState.Faulted := by
  induction n with
  | zero => simp [sessionAfter, sessionStep, upload_firmware, h]
  | succ k ih => rw [show k + 1 + 3 = (k + 3) + 1 by omega, sessionAfter, ih, sessionStep]

/-- With a firmware image that is not empty and a sensor whose identity registers
agree with the expected constant, the session reaches Ready. -/
theorem begin_PMW_ready (expected : Nat) (regs : Nat → Nat) (image : List Nat)
    (himg : image ≠ []) (h : check_signature expected regs = true) :
    begin_PMW expected regs image = SessionState.Ready := by
  cases image with
  | nil => exact absurd rfl himg
  | cons b bs => simp [begin_PMW, sessionAfter, sessionStep, upload_firmware, h]

/-- Claim C4: the signature check passes only when the product-ID read is the
expected constant and the inverse-product-ID read is its bitwise inverse; a session
that reaches Ready has both, and when either read disagrees the session started by
begin_PMW ends Faulted, is Ready after no number of transitions, and is Faulted from
the third transition on. -/
theorem C4_signature_mismatch_faults (expected : Nat) (regs : Nat → Nat)
    (image : List Nat) :
    (check_signature expected regs = true ↔
        read_reg_PMW regs REG_Product_ID = expected ∧
          read_reg_PMW regs REG_Inverse_Product_ID = inverseByte expected) ∧
      (begin_PMW expected regs image = SessionState.Ready →
        read_reg_PMW regs REG_Product_ID = expected ∧
          read_reg_PMW regs REG_Inverse_Product_ID = inverseByte expected) ∧
      (read_reg_PMW regs REG_Product_ID ≠ expected ∨
          read_reg_PMW regs REG_Inverse_Product_ID ≠ inverseByte expected →
        begin_PMW expected regs image = SessionState.Faulted ∧
          (∀ n, sessionAfter expected regs image n ≠ SessionState.Ready) ∧
          (∀ n, 3 ≤ n → sessionAfter expected regs image n = SessionState.Faulted)) := by
  have hiff := check_signature_iff expected regs
  have hfault : check_signature expected regs = false →
      ∀ n, 3 ≤ n → sessionAfter expected regs image n = SessionState.Faulted := by
    intro h n hn
    obtain ⟨k, rfl⟩ : ∃ k, n = k + 3 := ⟨n - 3, by omega⟩
    exact sessionAfter_faulted expected regs image h k
  refine ⟨hiff, ?_, ?_⟩
  · intro hready
    cases hc : check_signature expected regs with
    | true => exact hiff.mp hc
    | false =>
      have := hfault hc 4 (by decide)
      rw [begin_PMW] at hready
      rw [hready] at this
      exact absurd this (by decide)
  · intro hbad
    have hc : check_signature expected regs = false := by
      cases hc : check_signature expected regs with
      | false => rfl
      | true =>
        obtain ⟨h1, h2⟩ := hiff.mp hc
        rcases hbad with hb | hb
        · exact absurd h1 hb
        · exact absurd h2 hb
    refine ⟨hfault hc 4 (by decide), ?_, hfault hc⟩
    intro n
    by_cases hn : 3 ≤ n
    · rw [hfault hc n hn]; decide
    · have : n = 0 ∨ n = 1 ∨ n = 2 := by omega
      rcases this with rfl | rfl | rfl <;>
        simp [sessionAfter, sessionStep]

/-- Witness for C4 on a sample sensor: with the expected constant 0x42 and a sensor
that answers 0x42 and 0xBC (not the inverse 0xBD), the session ends Faulted. -/
theorem C4_signature_mismatch_faults_witness :
    read_reg_PMW (sampleSensor 0x42 0xBC) REG_Inverse_Product_ID ≠ inverseByte 0x42 ∧
      begin_PMW 0x42 (sampleSensor 0x42 0xBC) [0x01] = SessionState.Faulted :=
  ⟨by decide,
    ((C4_signature_mismatch_faults 0x42 (sampleSensor 0x42 0xBC) [0x01]).2.2
      (Or.inr (by decide))).1⟩

/-! ### Sequencing delays -/

/-- Claim C7, as stated, fails: the four sequencing delays are not pairwise
different, because the write-after-read and the read-after-read delay are both 20. -/
theorem C7_counterexample :
    ¬ (TSWW ≠ TSRAD ∧ TSWW ≠ TSRW ∧ TSWW ≠ TSRR ∧ TSRAD ≠ TSRW ∧ TSRAD ≠ TSRR ∧
        TSRW ≠ TSRR) := by
  decide

/-- Claim C7, amended: each of the four sequencing cases has a delay constant of
its own name; TSWW and TSRAD differ from each other and from both TSRW and TSRR,
while TSRW and TSRR have the same value, 20. -/
theorem C7_sequencing_delays :
    TSWW ≠ TSRAD ∧ TSWW ≠ TSRW ∧ TSWW ≠ TSRR ∧ TSRAD ≠ TSRW ∧ TSRAD ≠ TSRR ∧
      TSRW = TSRR ∧ [TSWW, TSRAD, TSRW, TSRR].dedup.length = 3 := by
  decide

end Teensy4Mouse
